import Mathlib

/-!
Verification of `novaconf/util/classinfo.py`, a utility module that inspects
Python dataclass definitions.  The module is shallowly embedded: a dataclass
field descriptor becomes a structure whose `default` and `default_factory`
slots are `Option Nat` (with `none` playing the role of `dataclasses.MISSING`;
a factory is modelled by the value its zero-argument invocation returns,
since calling it is the only thing the code does with it), and the stateful
`DataClassInfo` object becomes explicit state passing: the `functools`
cached-property slot for `fields` is an `Option (List Field)` standing for the
presence of the key `fields` in the instance dictionary, and `_fieldmap` is an
`Option` association list standing for the attribute that is `None` until the
`fields` computation runs.  Python exceptions become an error type threaded
through `Except`, and the `cls` setter returns the possibly-raised error
together with the state it leaves behind (the wrapped class is reassigned
before the `del self.fields` statement that can raise `AttributeError`).
-/

namespace Novaconf

/-- Error kinds raised by the module: `TypeError` at construction,
`KeyError` from the name-based lookups, and `AttributeError` from
`del self.fields` when the cached-property entry is absent. -/
inductive PyErr where
  | typeErr (msg : String)
  | keyErr (msg : String)
  | attrErr (msg : String)
deriving DecidableEq

/-- A dataclass field descriptor: `name`, `default` (`none` = `MISSING`),
`default_factory` (`none` = `MISSING`, `some v` = a factory returning `v`)
and the opaque `metadata` mapping.  The declared type annotation is opaque to
the module and is omitted. -/
structure Field where
  name : String
  default : Option Nat
  default_factory : Option Nat
  metadata : List (String × Nat)
deriving DecidableEq

/-- A dataclass: a class name and its ordered field descriptors, what
`dataclasses.fields` returns. -/
structure DataClass where
  name : String
  fields : List Field
deriving DecidableEq

/-- A candidate object handed to the constructor: either a dataclass or some
other object, carrying only its type name. -/
inductive PyObj where
  | dataclass (d : DataClass)
  | other (tyname : String)
deriving DecidableEq

/-- A Python value as seen by `get_field`: a field descriptor, `None`, or an
arbitrary caller-supplied default. -/
inductive PyVal where
  | field (f : Field)
  | pynone
  | other (n : Nat)
deriving DecidableEq

/-- `is_dataclass(cls)`. -/
def is_dataclass : PyObj → Bool
  | .dataclass _ => true
  | .other _ => false

/-- `is_missing(o)`: `o is MISSING or type(o) is MISSING`.  On the slots we
model, `MISSING` is `none` (the second disjunct is vacuous in Python: no
object has `MISSING` as its type). -/
def is_missing (o : Option Nat) : Bool :=
  o.isNone

/-- `field_has_default(field)`:
`not is_missing(field.default) or not is_missing(field.default_factory)`. -/
def field_has_default (f : Field) : Bool :=
  !is_missing f.default || !is_missing f.default_factory

/-- `field_default_value(field)`: the default if not missing, else the result
of invoking the factory if not missing, else `MISSING` (here `none`). -/
def field_default_value (f : Field) : Option Nat :=
  if !is_missing f.default then
    f.default
  else if !is_missing f.default_factory then
    f.default_factory
  else
    none

/-- The dict comprehension `{field.name: field for field in fields}`:
insertion in order, a later duplicate key overwriting an earlier one. -/
def mkFieldmap (fs : List Field) : List (String × Field) :=
  fs.map (fun f => (f.name, f))

/-- `dict.get` on the association list built by `mkFieldmap`: a left fold in
insertion order, so the last binding of a key wins, as in a Python dict. -/
def dictGet (m : List (String × Field)) (k : String) : Option Field :=
  m.foldl (fun acc p => if p.1 == k then some p.2 else acc) none

/-- The state of a `DataClassInfo` instance: the wrapped class `_cls`, the
cached-property slot for `fields` (`none` when the key `fields` is absent
from the instance dictionary) and `_fieldmap` (`none` standing for Python
`None`). -/
structure DataClassInfo where
  _cls : DataClass
  fieldsCache : Option (List Field)
  _fieldmap : Option (List (String × Field))
deriving DecidableEq

/-- `DataClassInfo.__init__(cls)`: `TypeError` unless `cls` is a dataclass;
otherwise stores the class, sets `_fieldmap = None`, and leaves the
cached-property slot empty. -/
def DataClassInfo.init (o : PyObj) : Except PyErr DataClassInfo :=
  match o with
  | .dataclass d => .ok { _cls := d, fieldsCache := none, _fieldmap := none }
  | .other t =>
      .error (.typeErr ("invalid type " ++ t ++ ": cls must be a dataclass"))

/-- The state produced by a successful construction on dataclass `d`. -/
def fromClass (d : DataClass) : DataClassInfo :=
  { _cls := d, fieldsCache := none, _fieldmap := none }

/-- The `cls` property getter. -/
def DataClassInfo.cls (s : DataClassInfo) : DataClass :=
  s._cls

/-- The `name` property: `self._cls.__name__`. -/
def DataClassInfo.name (s : DataClassInfo) : String :=
  s._cls.name

/-- The `cls` property setter: `self._cls = cls; del self.fields;
self._fieldmap = None`.  `del self.fields` removes the cached-property entry
from the instance dictionary and raises `AttributeError` when it is absent;
in that case `_cls` has already been reassigned and `_fieldmap` is left
untouched.  Returns the raised error (if any) with the resulting state. -/
def DataClassInfo.set_cls (s : DataClassInfo) (c : DataClass) :
    Option PyErr × DataClassInfo :=
  let s1 : DataClassInfo := { s with _cls := c }
  match s1.fieldsCache with
  | none => (some (.attrErr "fields"), s1)
  | some _ => (none, { s1 with fieldsCache := none, _fieldmap := none })

/-- The `fields` cached property: on a cache miss, computes
`list(dataclasses.fields(self.cls))`, rebuilds `_fieldmap` as a side effect
and stores the list in the instance dictionary; on a hit, returns the cached
list unchanged. -/
def DataClassInfo.fields (s : DataClassInfo) : List Field × DataClassInfo :=
  match s.fieldsCache with
  | some fs => (fs, s)
  | none =>
      let fs := s.cls.fields
      (fs, { s with fieldsCache := some fs, _fieldmap := some (mkFieldmap fs) })

/-- The `fieldmap` property: `if "fields" not in self.__dict__: self.fields`
(triggering the computation for its side effect), then `return
self._fieldmap`. -/
def DataClassInfo.fieldmap (s : DataClassInfo) :
    Option (List (String × Field)) × DataClassInfo :=
  let s1 := if s.fieldsCache.isNone then (s.fields).2 else s
  (s1._fieldmap, s1)

/-- `required_fields` loop body: append fields while they lack a default,
`break` at the first field that has one. -/
def requiredLoop : List Field → List Field
  | [] => []
  | f :: rest => if !field_has_default f then f :: requiredLoop rest else []

/-- The `required_fields` property. -/
def DataClassInfo.required_fields (s : DataClassInfo) :
    List Field × DataClassInfo :=
  let r := s.fields
  (requiredLoop r.1, r.2)

/-- `optional_fields` loop body over `self.fields[::-1]`: append fields while
they have a default, `break` at the first field without one. -/
def optionalLoop : List Field → List Field
  | [] => []
  | f :: rest => if field_has_default f then f :: optionalLoop rest else []

/-- The `optional_fields` property: run the loop over the reversed field list
and reverse the result (`fields[::-1]` twice). -/
def DataClassInfo.optional_fields (s : DataClassInfo) :
    List Field × DataClassInfo :=
  let r := s.fields
  ((optionalLoop r.1.reverse).reverse, r.2)

/-- `split_required_optional_fields` loop: one pass over `fields`, appending
each field to `opt` when it has a default and to `req` otherwise. -/
def splitLoop : List Field → List Field × List Field
  | [] => ([], [])
  | f :: rest =>
      let r := splitLoop rest
      if field_has_default f then (r.1, f :: r.2) else (f :: r.1, r.2)

/-- The `split_required_optional_fields()` method. -/
def DataClassInfo.split_required_optional_fields (s : DataClassInfo) :
    (List Field × List Field) × DataClassInfo :=
  let r := s.fields
  (splitLoop r.1, r.2)

/-- `get_field(field, default=None)`: `self.fieldmap.get(field, default)`.
Were `_fieldmap` still `None` after the `fieldmap` property ran, the `.get`
call would raise `AttributeError`; that branch is kept for faithfulness and
shown unreachable on well-formed states. -/
def DataClassInfo.get_field (s : DataClassInfo) (field : String)
    (default : PyVal) : Except PyErr PyVal × DataClassInfo :=
  let r := s.fieldmap
  match r.1 with
  | none => (.error (.attrErr "NoneType has no attribute get"), r.2)
  | some m =>
      match dictGet m field with
      | some f => (.ok (.field f), r.2)
      | none => (.ok default, r.2)

/-- `default_value(field)`: `get_field` with the implicit `None` default,
`KeyError` if the result is `None`, else `field_default_value` of the found
descriptor.  (The `.other` branch would be Python reaching
`field_default_value` on a non-Field object; it is unreachable because the
default passed is `None`.) -/
def DataClassInfo.default_value (s : DataClassInfo) (field : String) :
    Except PyErr (Option Nat) × DataClassInfo :=
  match s.get_field field .pynone with
  | (.error e, s1) => (.error e, s1)
  | (.ok .pynone, s1) =>
      (.error (.keyErr (s1.name ++ " has no field " ++ field)), s1)
  | (.ok (.field f), s1) => (.ok (field_default_value f), s1)
  | (.ok (.other _), s1) => (.error (.attrErr "default"), s1)

/-- `get_metadata(field)`: `KeyError` if absent, else the descriptor's
`metadata` mapping. -/
def DataClassInfo.get_metadata (s : DataClassInfo) (field : String) :
    Except PyErr (List (String × Nat)) × DataClassInfo :=
  match s.get_field field .pynone with
  | (.error e, s1) => (.error e, s1)
  | (.ok .pynone, s1) =>
      (.error (.keyErr (s1.name ++ " has no field " ++ field)), s1)
  | (.ok (.field f), s1) => (.ok f.metadata, s1)
  | (.ok (.other _), s1) => (.error (.attrErr "metadata"), s1)

/-- `has_default(field)`: `KeyError` if absent, else
`field_has_default` of the descriptor. -/
def DataClassInfo.has_default (s : DataClassInfo) (field : String) :
    Except PyErr Bool × DataClassInfo :=
  match s.get_field field .pynone with
  | (.error e, s1) => (.error e, s1)
  | (.ok .pynone, s1) =>
      (.error (.keyErr (s1.name ++ " has no field " ++ field)), s1)
  | (.ok (.field f), s1) => (.ok (field_has_default f), s1)
  | (.ok (.other _), s1) => (.error (.attrErr "default"), s1)

/-- Well-formedness of an inspector state: either the cached-property slot is
empty and `_fieldmap` is `None` (as right after construction or a successful
`cls` reassignment), or both caches hold exactly the data of the currently
wrapped class.  Every state reachable through the API satisfies this. -/
def WF (s : DataClassInfo) : Prop :=
  (s.fieldsCache = none ∧ s._fieldmap = none) ∨
    (s.fieldsCache = some s._cls.fields ∧
      s._fieldmap = some (mkFieldmap s._cls.fields))

instance (s : DataClassInfo) : Decidable (WF s) := by
  unfold WF
  infer_instance

/-- Classifier for a `TypeError` result. -/
def isTypeErr {α : Type} : Except PyErr α → Bool
  | .error (.typeErr _) => true
  | _ => false

/-- Classifier for a `KeyError` result. -/
def isKeyErr {α : Type} : Except PyErr α → Bool
  | .error (.keyErr _) => true
  | _ => false

/-- Classifier for an `AttributeError`. -/
def isAttrErr : Option PyErr → Bool
  | some (.attrErr _) => true
  | _ => false

/-- Classifier for a non-raising result. -/
def isOkRes {α : Type} : Except PyErr α → Bool
  | .ok _ => true
  | _ => false

/-! Helper lemmas about the loops and the dictionary. -/

theorem requiredLoop_eq_take (fs : List Field) :
    requiredLoop fs = fs.take (fs.findIdx field_has_default) := by
  induction fs with
  | nil => rfl
  | cons f rest ih =>
      cases h : field_has_default f <;>
        simp [requiredLoop, List.findIdx_cons, h, ih]

theorem optionalLoop_eq_take (fs : List Field) :
    optionalLoop fs = fs.take (fs.findIdx (fun f => !field_has_default f)) := by
  induction fs with
  | nil => rfl
  | cons f rest ih =>
      cases h : field_has_default f <;>
        simp [optionalLoop, List.findIdx_cons, h, ih]

theorem reverse_take_reverse (l : List Field) (n : Nat) :
    (l.reverse.take n).reverse = l.drop (l.length - n) := by
  have h := @List.reverse_take Field l.reverse n
  simpa using h

theorem splitLoop_eq_filter (fs : List Field) :
    splitLoop fs = (fs.filter (fun f => !field_has_default f),
      fs.filter field_has_default) := by
  induction fs with
  | nil => rfl
  | cons f rest ih =>
      cases h : field_has_default f <;>
        simp [splitLoop, List.filter_cons, h, ih]

theorem dict_foldl_or (k : String) (m : List (String × Field))
    (acc : Option Field) :
    m.foldl (fun acc p => if p.1 == k then some p.2 else acc) acc
      = (dictGet m k).elim acc some := by
  induction m generalizing acc with
  | nil => rfl
  | cons p m ih =>
      show List.foldl _ (if p.1 == k then some p.2 else acc) m = _
      rw [ih]
      show _ = Option.elim (List.foldl _ (if p.1 == k then some p.2 else none) m) _ _
      rw [ih]
      cases h : dictGet m k <;> cases hp : p.1 == k <;> simp [hp]

theorem dictGet_cons (f : Field) (fs : List Field) (k : String) :
    dictGet (mkFieldmap (f :: fs)) k
      = (dictGet (mkFieldmap fs) k).elim
          (if f.name == k then some f else none) some := by
  show List.foldl _ (if f.name == k then some f else none) (mkFieldmap fs) = _
  rw [dict_foldl_or]

theorem dictGet_eq_none (fs : List Field) (k : String) :
    dictGet (mkFieldmap fs) k = none ↔ k ∉ fs.map Field.name := by
  induction fs with
  | nil => simp [dictGet, mkFieldmap]
  | cons f fs ih =>
      rw [dictGet_cons]
      cases h : dictGet (mkFieldmap fs) k with
      | none =>
          have hk := ih.mp h
          cases hp : f.name == k with
          | true =>
              have hkf : k = f.name := (eq_of_beq hp).symm
              simp [hkf]
          | false =>
              have hne : k ≠ f.name := by
                intro hkk
                rw [hkk] at hp
                simp at hp
              simp [List.mem_cons, hk, hne]
      | some v =>
          have hk : k ∈ fs.map Field.name := by
            by_contra hnm
            rw [ih.mpr hnm] at h
            exact absurd h (by simp)
          simp [List.mem_cons, hk]

theorem dictGet_nodup_find (fs : List Field) (k : String)
    (hnd : (fs.map Field.name).Nodup) :
    dictGet (mkFieldmap fs) k = fs.find? (fun f => f.name == k) := by
  induction fs with
  | nil => rfl
  | cons f fs ih =>
      have hnd' : (fs.map Field.name).Nodup := (List.nodup_cons.mp hnd).2
      have hnf : f.name ∉ fs.map Field.name := (List.nodup_cons.mp hnd).1
      rw [dictGet_cons, ih hnd']
      cases hp : f.name == k with
      | true =>
          have hk : k = f.name := (eq_of_beq hp).symm
          have hnone : dictGet (mkFieldmap fs) k = none :=
            (dictGet_eq_none fs k).mpr (by rw [hk]; exact hnf)
          rw [ih hnd'] at hnone
          simp [List.find?, hp, hnone]
      | false =>
          cases h : fs.find? (fun f => f.name == k) <;>
            simp [List.find?, hp, h]

theorem count_filter_split (p : Field → Bool) (l : List Field) (f : Field) :
    (l.filter (fun x => !p x)).count f + (l.filter p).count f = l.count f := by
  induction l with
  | nil => rfl
  | cons a l ih =>
      cases hp : p a <;>
        simp [List.filter_cons, hp, List.count_cons, ← ih] <;> omega

/-- Claim C1: for every wrapped record class, `required_fields` is exactly
the prefix of `fields` up to (not including) the first field that has a
default or default-factory: the elements before index
`findIdx field_has_default`.  In particular it is empty when the first field
already has a default, and a no-default field after a defaulted one is
excluded. -/
theorem required_fields_spec (d : DataClass) :
    ((fromClass d).required_fields).1
      = d.fields.take (d.fields.findIdx field_has_default) :=
  requiredLoop_eq_take d.fields

/-- Claim C2: for every wrapped record class, `optional_fields` is exactly
the suffix of `fields` obtained by scanning from the back while fields have
a default, stopping at the first field without one, returned in declaration
order: dropping everything up to the last no-default field.  It is empty
when the last field lacks a default. -/
theorem optional_fields_spec (d : DataClass) :
    ((fromClass d).optional_fields).1
      = d.fields.drop (d.fields.length
          - d.fields.reverse.findIdx (fun f => !field_has_default f)) := by
  have h1 : ((fromClass d).optional_fields).1
      = (optionalLoop d.fields.reverse).reverse := rfl
  rw [h1, optionalLoop_eq_take, reverse_take_reverse]

/-- Claim C3: `split_required_optional_fields()` is the complete,
order-preserving partition of `fields` by `field_has_default`, with no
prefix/suffix assumption: the first component is the subsequence of fields
without a default, the second the subsequence with one, and every field
occurrence lands in exactly one of the two (the occurrence counts add up). -/
theorem split_required_optional_fields_spec (d : DataClass) :
    ((fromClass d).split_required_optional_fields).1.1
        = d.fields.filter (fun f => !field_has_default f)
      ∧ ((fromClass d).split_required_optional_fields).1.2
        = d.fields.filter field_has_default
      ∧ ∀ f : Field,
          ((fromClass d).split_required_optional_fields).1.1.count f
            + ((fromClass d).split_required_optional_fields).1.2.count f
            = d.fields.count f := by
  have h : ((fromClass d).split_required_optional_fields).1
      = splitLoop d.fields := rfl
  refine ⟨?_, ?_, ?_⟩ <;>
    simp only [h, splitLoop_eq_filter]
  · intro f
    exact count_filter_split field_has_default d.fields f

/-- The state after the `fields` computation has run on a freshly
constructed inspector for `d`: both caches populated from `d`. -/
def fieldsComputed (d : DataClass) : DataClassInfo :=
  { _cls := d, fieldsCache := some d.fields,
    _fieldmap := some (mkFieldmap d.fields) }

theorem get_field_fromClass (d : DataClass) (nm : String) (dflt : PyVal) :
    (fromClass d).get_field nm dflt
      = ((match dictGet (mkFieldmap d.fields) nm with
          | some f => Except.ok (PyVal.field f)
          | none => Except.ok dflt), fieldsComputed d) := by
  cases hdg : dictGet (mkFieldmap d.fields) nm <;>
    simp [DataClassInfo.get_field, DataClassInfo.fieldmap,
      DataClassInfo.fields, DataClassInfo.cls, fromClass, fieldsComputed, hdg]

theorem default_value_fromClass (d : DataClass) (nm : String) :
    (fromClass d).default_value nm
      = ((match dictGet (mkFieldmap d.fields) nm with
          | some f => Except.ok (field_default_value f)
          | none =>
              Except.error (.keyErr (d.name ++ " has no field " ++ nm))),
         fieldsComputed d) := by
  unfold DataClassInfo.default_value
  rw [get_field_fromClass]
  cases hdg : dictGet (mkFieldmap d.fields) nm <;>
    simp [hdg, fieldsComputed, DataClassInfo.name]

theorem get_metadata_fromClass (d : DataClass) (nm : String) :
    (fromClass d).get_metadata nm
      = ((match dictGet (mkFieldmap d.fields) nm with
          | some f => Except.ok f.metadata
          | none =>
              Except.error (.keyErr (d.name ++ " has no field " ++ nm))),
         fieldsComputed d) := by
  unfold DataClassInfo.get_metadata
  rw [get_field_fromClass]
  cases hdg : dictGet (mkFieldmap d.fields) nm <;>
    simp [hdg, fieldsComputed, DataClassInfo.name]

theorem has_default_fromClass (d : DataClass) (nm : String) :
    (fromClass d).has_default nm
      = ((match dictGet (mkFieldmap d.fields) nm with
          | some f => Except.ok (field_has_default f)
          | none =>
              Except.error (.keyErr (d.name ++ " has no field " ++ nm))),
         fieldsComputed d) := by
  unfold DataClassInfo.has_default
  rw [get_field_fromClass]
  cases hdg : dictGet (mkFieldmap d.fields) nm <;>
    simp [hdg, fieldsComputed, DataClassInfo.name]

/-- Example record classes used by the witnesses. -/
def Point : DataClass :=
  { name := "Point",
    fields := [{ name := "x", default := none, default_factory := none,
                 metadata := [] },
               { name := "y", default := some 0, default_factory := none,
                 metadata := [] }] }

/-- A field carrying both an explicit default and a default-factory. -/
def fieldBoth : Field :=
  { name := "b", default := some 1, default_factory := some 2,
    metadata := [("doc", 5)] }

def Mixed : DataClass :=
  { name := "Mixed",
    fields := [{ name := "a", default := none, default_factory := none,
                 metadata := [] },
               fieldBoth,
               { name := "c", default := none, default_factory := some 7,
                 metadata := [] }] }

def Empty : DataClass := { name := "Empty", fields := [] }

/-- Claim C4: for every field name present in the wrapped class,
`default_value` returns the explicit default when one is set, even when a
default-factory is also present; otherwise the factory invocation result
when a factory is set; otherwise the `MISSING` sentinel (modelled `none`).
The right-hand side spells out exactly this preference order. -/
theorem default_value_spec (d : DataClass) (nm : String) (f : Field)
    (hnd : (d.fields.map Field.name).Nodup)
    (hf : d.fields.find? (fun g => g.name == nm) = some f) :
    ((fromClass d).default_value nm).1
      = Except.ok (match f.default with
                   | some v => some v
                   | none => f.default_factory) := by
  have hd : dictGet (mkFieldmap d.fields) nm = some f := by
    rw [dictGet_nodup_find d.fields nm hnd]; exact hf
  rw [default_value_fromClass, hd]
  cases hdef : f.default <;> cases hfac : f.default_factory <;>
    simp [field_default_value, is_missing, hdef, hfac]

theorem default_value_spec_witness :
    (Mixed.fields.map Field.name).Nodup
      ∧ ((fromClass Mixed).default_value "b").1 = Except.ok (some 1) :=
  ⟨by decide, default_value_spec Mixed "b" fieldBoth (by decide) (by decide)⟩

/-- Claim C5: for every wrapped record class, `default_value`,
`get_metadata` and `has_default` all raise the `KeyError` kind exactly on
names that are not fields; on names that are fields, none of them raises. -/
theorem lookup_error_spec (d : DataClass) (nm : String) :
    (nm ∉ d.fields.map Field.name →
        isKeyErr ((fromClass d).default_value nm).1 = true
      ∧ isKeyErr ((fromClass d).get_metadata nm).1 = true
      ∧ isKeyErr ((fromClass d).has_default nm).1 = true)
  ∧ (nm ∈ d.fields.map Field.name →
        isOkRes ((fromClass d).default_value nm).1 = true
      ∧ isOkRes ((fromClass d).get_metadata nm).1 = true
      ∧ isOkRes ((fromClass d).has_default nm).1 = true) := by
  constructor
  · intro hmem
    have hdg : dictGet (mkFieldmap d.fields) nm = none :=
      (dictGet_eq_none _ _).mpr hmem
    refine ⟨?_, ?_, ?_⟩ <;>
      simp [default_value_fromClass, get_metadata_fromClass,
        has_default_fromClass, hdg, isKeyErr]
  · intro hmem
    obtain ⟨f, hdg⟩ : ∃ f, dictGet (mkFieldmap d.fields) nm = some f := by
      cases h : dictGet (mkFieldmap d.fields) nm with
      | none => exact absurd hmem ((dictGet_eq_none _ _).mp h)
      | some f => exact ⟨f, rfl⟩
    refine ⟨?_, ?_, ?_⟩ <;>
      simp [default_value_fromClass, get_metadata_fromClass,
        has_default_fromClass, hdg, isOkRes]

theorem lookup_error_spec_witness :
    ("z" ∉ Point.fields.map Field.name
      ∧ isKeyErr ((fromClass Point).default_value "z").1 = true
      ∧ isKeyErr ((fromClass Point).get_metadata "z").1 = true
      ∧ isKeyErr ((fromClass Point).has_default "z").1 = true)
  ∧ ("x" ∈ Point.fields.map Field.name
      ∧ isOkRes ((fromClass Point).default_value "x").1 = true) :=
  ⟨⟨by decide, (lookup_error_spec Point "z").1 (by decide)⟩,
   ⟨by decide, ((lookup_error_spec Point "x").2 (by decide)).1⟩⟩

/-- Claim C6: on every well-formed inspector state, for every name and every
caller-supplied default, `get_field` never raises: it returns the wrapped
class's descriptor for the name when present and the caller's default
otherwise. -/
theorem get_field_total_spec (s : DataClassInfo) (h : WF s) (nm : String)
    (dflt : PyVal) :
    (s.get_field nm dflt).1
      = Except.ok (match dictGet (mkFieldmap s._cls.fields) nm with
                   | some f => PyVal.field f
                   | none => dflt) := by
  rcases h with ⟨h1, h2⟩ | ⟨h1, h2⟩ <;>
    cases hdg : dictGet (mkFieldmap s._cls.fields) nm <;>
      simp [DataClassInfo.get_field, DataClassInfo.fieldmap,
        DataClassInfo.fields, DataClassInfo.cls, h1, h2, hdg]

theorem get_field_total_spec_witness :
    WF (fromClass Point)
      ∧ ((fromClass Point).get_field "z" (PyVal.other 7)).1
          = Except.ok (PyVal.other 7) :=
  ⟨by decide,
   get_field_total_spec (fromClass Point) (by decide) "z" (PyVal.other 7)⟩

/-- Claim C7: after any reassignment of `cls` (whether or not the
`del self.fields` step raised), a subsequent `fields` access returns the
newly assigned class's field list, recomputed, and rebuilds the
name-to-descriptor map for the new class. -/
theorem set_cls_invalidates_spec (s : DataClassInfo) (c : DataClass) :
    (((s.set_cls c).2).fields).1 = c.fields
      ∧ (((s.set_cls c).2).fields).2._fieldmap
          = some (mkFieldmap c.fields) := by
  cases h : s.fieldsCache <;>
    simp [DataClassInfo.set_cls, DataClassInfo.fields, DataClassInfo.cls, h]

/-- Claim C8: `fieldmap` access on a fresh inspector populates the map by
triggering the `fields` computation, its lookup agrees with a front-to-back
scan of `fields` for each name (field names being unique, as in any
dataclass), and its keys are exactly the field names in order. -/
theorem fieldmap_spec (d : DataClass)
    (hnd : (d.fields.map Field.name).Nodup) :
    ((fromClass d).fieldmap).1 = some (mkFieldmap d.fields)
      ∧ ((fromClass d).fieldmap).2.fieldsCache = some d.fields
      ∧ (∀ nm : String, dictGet (mkFieldmap d.fields) nm
            = d.fields.find? (fun f => f.name == nm))
      ∧ (mkFieldmap d.fields).map Prod.fst = d.fields.map Field.name := by
  refine ⟨rfl, rfl, ?_, ?_⟩
  · intro nm; exact dictGet_nodup_find d.fields nm hnd
  · simp [mkFieldmap]

theorem fieldmap_spec_witness :
    (Point.fields.map Field.name).Nodup
      ∧ ((fromClass Point).fieldmap).1 = some (mkFieldmap Point.fields) :=
  ⟨by decide, (fieldmap_spec Point (by decide)).1⟩

/-- Claim C9: construction raises the `TypeError` kind exactly when the
candidate is not a dataclass; on a dataclass it succeeds and wraps exactly
that class, with both caches empty. -/
theorem init_spec (o : PyObj) :
    (is_dataclass o = false → isTypeErr (DataClassInfo.init o) = true)
      ∧ ∀ d : DataClass, o = PyObj.dataclass d →
          DataClassInfo.init o = Except.ok (fromClass d) := by
  cases o with
  | dataclass d =>
      refine ⟨fun h => ?_, fun d' hd => ?_⟩
      · simp [is_dataclass] at h
      · cases hd; rfl
  | other t =>
      refine ⟨fun _ => rfl, fun d hd => ?_⟩
      cases hd

theorem init_spec_witness :
    is_dataclass (PyObj.other "int") = false
      ∧ isTypeErr (DataClassInfo.init (PyObj.other "int")) = true
      ∧ DataClassInfo.init (PyObj.dataclass Point)
          = Except.ok (fromClass Point) :=
  ⟨by decide, (init_spec (PyObj.other "int")).1 (by decide),
   (init_spec (PyObj.dataclass Point)).2 Point rfl⟩

/-- Claim C10: reassigning `cls` while the cached-property entry for
`fields` is absent raises the `AttributeError` kind, and at that point the
wrapped class reference has already been replaced with the new value;
reassignment succeeds without error exactly when the entry is present,
i.e. when `fields` has been computed since the last reassignment. -/
theorem set_cls_raises_spec (s : DataClassInfo) (c : DataClass) :
    (s.fieldsCache = none →
        isAttrErr (s.set_cls c).1 = true ∧ ((s.set_cls c).2)._cls = c)
      ∧ (s.fieldsCache ≠ none → (s.set_cls c).1 = none) := by
  cases h : s.fieldsCache with
  | none =>
      refine ⟨fun _ => ⟨?_, ?_⟩, fun hne => absurd rfl hne⟩ <;>
        simp [DataClassInfo.set_cls, h, isAttrErr]
  | some fs =>
      refine ⟨fun hc => ?_, fun _ => ?_⟩
      · cases hc
      · simp [DataClassInfo.set_cls, h]

theorem set_cls_raises_spec_witness :
    (fromClass Point).fieldsCache = none
      ∧ isAttrErr ((fromClass Point).set_cls Empty).1 = true
      ∧ ((fromClass Point).set_cls Empty).2._cls = Empty :=
  ⟨rfl, ((set_cls_raises_spec (fromClass Point) Empty).1 rfl).1,
   ((set_cls_raises_spec (fromClass Point) Empty).1 rfl).2⟩

end Novaconf
